import Mathlib

/-!
# Checkers3D: a shallow embedding of `main.cpp`

The program is a window/context bootstrap, a shader compile/link pipeline and a
render loop over a static mesh.  Every function of `main.cpp` is embedded as a
function on an explicit `World`: the ordered trace of the calls the process has
made into GLFW, GLEW and OpenGL and of its writes to `std::cerr`, together with
the should-close flag of the window.  What the outside answers (the filesystem,
the return values of the libraries, the keyboard, close requests) is an `Env`:
every answer is a function of the trace up to and including the call that asks
for it, so that an `Env` can describe any run of the libraries.

`exit(EXIT_FAILURE)` ends the process inside a callee; `Outcome` keeps that apart
from a normal return.  The render loop need not terminate, so it takes fuel and
`board` answers `none` when the fuel does not suffice.
-/

namespace Checkers3D

/-! ## Constants of the C and library headers -/

def EXIT_SUCCESS : Int := 0
def EXIT_FAILURE : Int := 1
def GLFW_FALSE : Int := 0
def GLFW_PRESS : Int := 1
def GLFW_KEY_ESCAPE : Nat := 256
def GLFW_CONTEXT_VERSION_MAJOR : Nat := 0x00022002
def GLFW_CONTEXT_VERSION_MINOR : Nat := 0x00022003
def GLFW_OPENGL_PROFILE : Nat := 0x00022008
def GLFW_OPENGL_CORE_PROFILE : Nat := 0x00032001
def GLEW_OK : Nat := 0
def GL_DEBUG_OUTPUT : Nat := 0x92E0
def GL_FRONT_AND_BACK : Nat := 0x0408
def GL_LINE : Nat := 0x1B01
def GL_VERTEX_SHADER : Nat := 0x8B31
def GL_FRAGMENT_SHADER : Nat := 0x8B30
def GL_COMPILE_STATUS : Nat := 0x8B81
def GL_LINK_STATUS : Nat := 0x8B82
def GL_ARRAY_BUFFER : Nat := 0x8892
def GL_ELEMENT_ARRAY_BUFFER : Nat := 0x8893
def GL_STATIC_DRAW : Nat := 0x88E4
def GL_FLOAT : Nat := 0x1406
def GL_UNSIGNED_INT : Nat := 0x1405
def GL_TRIANGLES : Nat := 0x0004
def GL_COLOR_BUFFER_BIT : Nat := 0x00004000

def WINDOW_HEIGHT : Int := 800
def WINDOW_WIDTH : Int := 800

/-- The size in bytes of a `float`. -/
def sizeof_float : Nat := 4
/-- The size in bytes of a `uint32_t`. -/
def sizeof_uint32_t : Nat := 4

/-- A `float` literal of the source, held as its number of tenths: every float
literal of `main.cpp` (`-0.5f`, `0.0f`, `0.2f`, `0.5f`, `1.0f`) is a multiple of
one tenth, and the program does no arithmetic on them. -/
abbrev FloatLit := Int

/-! ## The filesystem -/

abbrev Filepath := String

/-- A regular file as the process sees it: its bytes, and whether the process
may open it for reading and for writing. -/
structure File where
  contents : String
  readable : Bool
  writable : Bool
deriving DecidableEq, Repr

/-- The filesystem: what is found at a path, if anything. -/
abbrev FileSystem := Filepath → Option File

/-- The open modes of `std::ios_base` that occur: `in`, and `in | out`. -/
inductive OpenMode where
  | read
  | readWrite
deriving DecidableEq, Repr

/-- Opening an existing file: `in` needs read permission, `in | out` (fopen mode
`r+`) needs read and write permission; neither creates a missing file.  The
answer is the byte content the stream will deliver, or `none` when `is_open()`
is false. -/
def openFile (fs : FileSystem) (path : Filepath) (mode : OpenMode) : Option String :=
  match fs path with
  | none => none
  | some f =>
    match mode with
    | .read => if f.readable then some f.contents else none
    | .readWrite => if f.readable && f.writable then some f.contents else none

/-- The default open mode of `std::fstream`, the one `std::fstream file{path}`
gets. -/
def fstreamDefaultMode : OpenMode := .readWrite

/-- Embedding of `getFileContents`: `std::fstream file{path}`; absent when
`!file.is_open()`, else the whole of `file.rdbuf()`. -/
def getFileContents (fs : FileSystem) (path : Filepath) : Option String :=
  match openFile fs path fstreamDefaultMode with
  | none => none
  | some bytes => some bytes

/-! ## Events and the world -/

/-- One observable action of the process: a call into GLFW, GLEW or OpenGL (with
the arguments that matter), or a write to `std::cerr`. -/
inductive Event where
  | glfwInit
  | glfwTerminate
  | glfwWindowHint (hint value : Nat)
  | glfwCreateWindow (width height : Int) (title : String)
  | glfwMakeContextCurrent (window : Nat)
  | glfwSetFramebufferSizeCallback (window : Nat)
  | glewInit
  | glEnable (cap : Nat)
  | glDebugMessageCallback
  | glViewport (x y width height : Int)
  | glPolygonMode (face mode : Nat)
  | glCreateShader (shaderType : Nat)
  | glShaderSource (shader : Nat) (source : String)
  | glCompileShader (shader : Nat)
  | glGetShaderiv (shader pname : Nat)
  | glGetShaderInfoLog (shader bufSize : Nat)
  | glCreateProgram
  | glAttachShader (program shader : Nat)
  | glLinkProgram (program : Nat)
  | glGetProgramiv (program pname : Nat)
  | glGetProgramInfoLog (program bufSize : Nat)
  | glCreateVertexArrays (n : Nat)
  | glBindVertexArray (array : Nat)
  | glCreateBuffers (n : Nat)
  | glBindBuffer (target buffer : Nat)
  | glBufferData (target size usage : Nat)
  | glVertexAttribPointer (index size type stride : Nat)
  | glEnableVertexAttribArray (index : Nat)
  | glClearColor (r g b a : FloatLit)
  | glClear (mask : Nat)
  | glUseProgram (program : Nat)
  | glDrawElements (mode count type : Nat)
  | glfwWindowShouldClose (window : Nat)
  | glfwGetKey (window key : Nat)
  | glfwSetWindowShouldClose (window : Nat) (value : Bool)
  | glfwSwapBuffers (window : Nat)
  | glfwPollEvents
  | cerr (message : String)
deriving DecidableEq, Repr

/-- The state the program acts on: the trace so far, oldest event first, and the
should-close flag of the window. -/
structure World where
  trace : List Event
  shouldClose : Bool
deriving DecidableEq, Repr

/-- Record one event at the end of the trace. -/
def World.emit (w : World) (e : Event) : World :=
  { w with trace := w.trace ++ [e] }

/-- The answers of everything outside the program.  Each answer is a function of
the trace up to and including the call that asks for it.  `SHADER_DIR` is the
macro of `assets.hpp`, fixed when the program is built. -/
structure Env where
  SHADER_DIR : String
  files : FileSystem
  glfwInit : List Event → Int
  /-- The window pointer, `none` for `nullptr`. -/
  glfwCreateWindow : List Event → Option Nat
  glewInit : List Event → Nat
  glCreateShader : List Event → Nat
  /-- The value of `status` after `glGetShaderiv`. -/
  compileStatus : List Event → Int
  /-- The text in `log` after `glGetShaderInfoLog`, up to its terminating NUL. -/
  shaderInfoLog : List Event → String
  glCreateProgram : List Event → Nat
  /-- The value of `status` after `glGetProgramiv`. -/
  linkStatus : List Event → Int
  /-- The text in `log` after `glGetProgramInfoLog`, up to its terminating NUL. -/
  programInfoLog : List Event → String
  glCreateVertexArrays : List Event → Nat
  glCreateBuffers : List Event → Nat
  glfwGetKey : List Event → Int
  /-- Whether this `glfwPollEvents` processes a request to close the window. -/
  closeRequested : List Event → Bool
  /-- The framebuffer resizes this `glfwPollEvents` delivers to the callback. -/
  resizes : List Event → List (Int × Int)

/-- How a function that may call `exit` ends: it returns a value, or the process
has ended inside it with the given exit code. -/
inductive Outcome (α : Type) where
  | returned (value : α) (w : World)
  | exited (code : Int) (w : World)

/-- The world in which an outcome leaves the process. -/
def Outcome.world {α : Type} : Outcome α → World
  | .returned _ w => w
  | .exited _ w => w

/-- Whether the process ended by a call of `exit` inside a callee. -/
def Outcome.viaExit {α : Type} : Outcome α → Bool
  | .returned _ _ => false
  | .exited _ _ => true

/-! ## Bootstrap -/

/-- Embedding of `teardown`. -/
def teardown (w : World) : World := w.emit .glfwTerminate

/-- Embedding of `framebuffer_size_callback`. -/
def framebuffer_size_callback (width height : Int) (w : World) : World :=
  w.emit (.glViewport 0 0 width height)

/-- Embedding of `initGLFW`. -/
def initGLFW (env : Env) (w : World) : Outcome Unit :=
  let w := w.emit .glfwInit
  if env.glfwInit w.trace = GLFW_FALSE then
    let w := w.emit (.cerr "Failed to initialize GLFW\n")
    let w := teardown w
    .exited EXIT_FAILURE w
  else
    let w := w.emit (.glfwWindowHint GLFW_CONTEXT_VERSION_MAJOR 4)
    let w := w.emit (.glfwWindowHint GLFW_CONTEXT_VERSION_MINOR 0)
    let w := w.emit (.glfwWindowHint GLFW_OPENGL_PROFILE GLFW_OPENGL_CORE_PROFILE)
    .returned () w

/-- Embedding of `initGLEW`. -/
def initGLEW (env : Env) (w : World) : Outcome Unit :=
  let w := w.emit .glewInit
  if env.glewInit w.trace ≠ GLEW_OK then
    let w := w.emit (.cerr "Failed to initialize GLEW\n")
    let w := teardown w
    .exited EXIT_FAILURE w
  else
    .returned () w

/-- Embedding of `create_window`. -/
def create_window (env : Env) (w : World) : Outcome Nat :=
  let w := w.emit (.glfwCreateWindow WINDOW_WIDTH WINDOW_HEIGHT "Checkers3D")
  match env.glfwCreateWindow w.trace with
  | none =>
    let w := w.emit (.cerr "Failed to create GLFWwindow\n")
    let w := teardown w
    .exited EXIT_FAILURE w
  | some window => .returned window w

/-- Embedding of `init`. -/
def init (env : Env) (wireframe_mode : Bool) (w : World) : Outcome Nat :=
  match initGLFW env w with
  | .exited code w => .exited code w
  | .returned () w =>
    match create_window env w with
    | .exited code w => .exited code w
    | .returned window w =>
      let w := w.emit (.glfwMakeContextCurrent window)
      let w := w.emit (.glfwSetFramebufferSizeCallback window)
      match initGLEW env w with
      | .exited code w => .exited code w
      | .returned () w =>
        let w := w.emit (.glEnable GL_DEBUG_OUTPUT)
        let w := w.emit .glDebugMessageCallback
        let w := w.emit (.glViewport 0 0 WINDOW_WIDTH WINDOW_HEIGHT)
        let w := if wireframe_mode then w.emit (.glPolygonMode GL_FRONT_AND_BACK GL_LINE) else w
        .returned window w

/-! ## Shaders and programs -/

/-- The C string behind `std::string::c_str()` as a NUL-terminated reader sees it:
the characters before the first NUL. -/
def c_str (s : String) : String :=
  String.mk (s.data.takeWhile (fun c => c != Char.ofNat 0))

/-- Embedding of `shader`. -/
def shader (env : Env) (shaderPath : Filepath) (shaderType : Nat) (w : World) :
    Option Nat × World :=
  match getFileContents env.files shaderPath with
  | none => (none, w.emit (.cerr "No shader source\n"))
  | some shaderSource =>
    let sourceString := c_str shaderSource
    let w := w.emit (.glCreateShader shaderType)
    let shaderId := env.glCreateShader w.trace
    let w := w.emit (.glShaderSource shaderId sourceString)
    let w := w.emit (.glCompileShader shaderId)
    let w := w.emit (.glGetShaderiv shaderId GL_COMPILE_STATUS)
    let status := env.compileStatus w.trace
    if status = 0 then
      let len := 1024
      let w := w.emit (.glGetShaderInfoLog shaderId len)
      let log := env.shaderInfoLog w.trace
      let w := w.emit (.cerr "shader compilation failed\n")
      let w := w.emit (.cerr log)
      let w := w.emit (.cerr "\n")
      (none, w)
    else
      (some shaderId, w)

/-- Embedding of `program`. -/
def program (env : Env) (vertexShader fragmentShader : Option Nat) (w : World) :
    Option Nat × World :=
  let w := w.emit .glCreateProgram
  let programId := env.glCreateProgram w.trace
  match vertexShader, fragmentShader with
  | some vs, some fs =>
    let w := w.emit (.glAttachShader programId vs)
    let w := w.emit (.glAttachShader programId fs)
    let w := w.emit (.glLinkProgram programId)
    let w := w.emit (.glGetProgramiv programId GL_LINK_STATUS)
    let status := env.linkStatus w.trace
    if status = 0 then
      let len := 1024
      let w := w.emit (.glGetProgramInfoLog programId len)
      let log := env.programInfoLog w.trace
      let w := w.emit (.cerr "program linking failed\n")
      let w := w.emit (.cerr log)
      let w := w.emit (.cerr "\n")
      (none, w)
    else
      (some programId, w)
  | _, _ => (none, w.emit (.cerr "vertex/fragment shader doesn't exist\n"))

/-! ## The mesh -/

namespace RGBColor

/-- Embedding of `RGBColor::color`. -/
structure color where
  r : FloatLit
  g : FloatLit
  b : FloatLit
  a : FloatLit
deriving DecidableEq, Repr

def Black : color := ⟨0, 0, 0, 0⟩
def Red : color := ⟨10, 0, 0, 0⟩

end RGBColor

/-- The array `boardVertices` of `board`, three coordinates per vertex, in tenths. -/
def boardVertices : List FloatLit := [
  -5, -5, 0, -- down left
  -5, 5, 0, -- up left
  5, 5, 0, -- up right
  5, -5, 0, -- down right
  -5, -5, 2, -- 4
  -5, 5, 2, -- 5
  5, 5, 2, -- 6
  5, -5, 2 -- 7
]

/-- The array `indeces` of `board`. -/
def indeces : List Nat := [
  0, 1, 2, 0, 2, 3, -- front
  4, 5, 6, 4, 5, 7, -- back
  1, 5, 6, 1, 6, 7, -- top
  0, 4, 7, 0, 7, 3, -- bottom
  0, 1, 4, 1, 5, 4, -- left
  3, 2, 7, 2, 6, 7 -- right
]

/-- The value of `sizeof(boardVertices)`. -/
def sizeof_boardVertices : Nat := boardVertices.length * sizeof_float

/-- The value of `sizeof(indeces)`. -/
def sizeof_indeces : Nat := indeces.length * sizeof_uint32_t

/-- The count argument of the draw call: `sizeof(indeces) / sizeof(indeces[0])`. -/
def drawCount : Nat := sizeof_indeces / sizeof_uint32_t

/-! ## The render loop -/

/-- The effect of `glfwSetWindowShouldClose`: the call, and the flag takes the value. -/
def glfwSetWindowShouldClose (window : Nat) (value : Bool) (w : World) : World :=
  { w.emit (.glfwSetWindowShouldClose window value) with shouldClose := value }

/-- The effect of `glfwPollEvents`: the call, then the resize callback once per
delivered resize, and the flag is raised when a close request is processed; it is
never lowered. -/
def glfwPollEvents (env : Env) (w : World) : World :=
  let w := w.emit .glfwPollEvents
  let tr := w.trace
  let w := (env.resizes tr).foldl (fun w p => framebuffer_size_callback p.1 p.2 w) w
  { w with shouldClose := w.shouldClose || env.closeRequested tr }

/-- The ids `board` keeps across the loop. -/
structure Handles where
  window : Nat
  finalProgram : Nat
  vertexBuffer : Nat
  indexBuffer : Nat
  vertexArray : Nat
deriving DecidableEq, Repr

/-- The condition of the `while`: the call of `glfwWindowShouldClose`. -/
def loopTest (h : Handles) (w : World) : World :=
  w.emit (.glfwWindowShouldClose h.window)

/-- The body of the `while` loop of `board`, one iteration. -/
def loopBody (env : Env) (h : Handles) (w : World) : World :=
  let w := w.emit (.glClearColor RGBColor.Black.r RGBColor.Black.g RGBColor.Black.b
    RGBColor.Black.a)
  let w := w.emit (.glClear GL_COLOR_BUFFER_BIT)
  let w := w.emit (.glUseProgram h.finalProgram)
  let w := w.emit (.glBindBuffer GL_ARRAY_BUFFER h.vertexBuffer)
  let w := w.emit (.glBindBuffer GL_ELEMENT_ARRAY_BUFFER h.indexBuffer)
  let w := w.emit (.glBindVertexArray h.vertexArray)
  let w := w.emit (.glDrawElements GL_TRIANGLES drawCount GL_UNSIGNED_INT)
  let w := w.emit (.glfwGetKey h.window GLFW_KEY_ESCAPE)
  let w := if env.glfwGetKey w.trace = GLFW_PRESS then
      glfwSetWindowShouldClose h.window true w
    else w
  let w := w.emit (.glfwSwapBuffers h.window)
  glfwPollEvents env w

/-- The `while` loop of `board`; `fuel` bounds the number of iterations, and the
answer is `none` when the loop is still running after that many. -/
def renderLoop (env : Env) (h : Handles) : Nat → World → Option World
  | 0, w =>
    let w := loopTest h w
    if w.shouldClose then some w else none
  | fuel + 1, w =>
    let w := loopTest h w
    if w.shouldClose then some w else renderLoop env h fuel (loopBody env h w)

/-! ## `board` and `main` -/

/-- The part of `board` between `init` and the shaders: the vertex array and the
two buffers are created and filled.  The answer is
`(vertexBuffer, indexBuffer, vertexArray)`. -/
def uploadMesh (env : Env) (w : World) : (Nat × Nat × Nat) × World :=
  let w := w.emit (.glCreateVertexArrays 1)
  let vertexArray := env.glCreateVertexArrays w.trace
  let w := w.emit (.glBindVertexArray vertexArray)
  let w := w.emit (.glCreateBuffers 1)
  let vertexBuffer := env.glCreateBuffers w.trace
  let w := w.emit (.glCreateBuffers 1)
  let indexBuffer := env.glCreateBuffers w.trace
  let w := w.emit (.glBindBuffer GL_ARRAY_BUFFER vertexBuffer)
  let w := w.emit (.glBindBuffer GL_ELEMENT_ARRAY_BUFFER indexBuffer)
  let w := w.emit (.glBufferData GL_ARRAY_BUFFER sizeof_boardVertices GL_STATIC_DRAW)
  let w := w.emit (.glBufferData GL_ELEMENT_ARRAY_BUFFER sizeof_indeces GL_STATIC_DRAW)
  let w := w.emit (.glVertexAttribPointer 0 3 GL_FLOAT (3 * sizeof_float))
  let w := w.emit (.glEnableVertexAttribArray 0)
  ((vertexBuffer, indexBuffer, vertexArray), w)

/-- The three lines of `board` that build the program: both shaders, then the
link. -/
def buildProgram (env : Env) (w : World) : Option Nat × World :=
  let (vertexShader, w) := shader env (env.SHADER_DIR ++ "vertex.glsl") GL_VERTEX_SHADER w
  let (fragmentShader, w) :=
    shader env (env.SHADER_DIR ++ "fragment.glsl") GL_FRAGMENT_SHADER w
  program env vertexShader fragmentShader w

/-- Embedding of `board`. -/
def board (env : Env) (fuel : Nat) (w : World) : Option (Outcome Int) :=
  match init env false w with
  | .exited code w => some (.exited code w)
  | .returned window w =>
    let ((vertexBuffer, indexBuffer, vertexArray), w) := uploadMesh env w
    let (finalProgram, w) := buildProgram env w
    match finalProgram with
    | none =>
      let w := w.emit (.cerr "no program\n")
      some (.returned EXIT_FAILURE w)
    | some finalProgram =>
      match renderLoop env ⟨window, finalProgram, vertexBuffer, indexBuffer, vertexArray⟩
          fuel w with
      | none => none
      | some w =>
        let w := teardown w
        some (.returned EXIT_SUCCESS w)

/-- Embedding of `main`. -/
def main (env : Env) (fuel : Nat) (w : World) : Option (Outcome Int) :=
  board env fuel w

/-- The world in which the process starts. -/
def World.start : World := ⟨[], false⟩

/-! ## Observations on traces and outcomes -/

/-- The value an outcome hands to the operating system: the value returned, or
the argument of `exit`. -/
def Outcome.code : Outcome Int → Int
  | .returned value _ => value
  | .exited code _ => code

/-- A call of `glDrawElements`. -/
def Event.isDraw : Event → Bool
  | .glDrawElements _ _ _ => true
  | _ => false

/-- A call of `glClear`. -/
def Event.isClear : Event → Bool
  | .glClear _ => true
  | _ => false

/-- A call of `glfwTerminate`. -/
def Event.isTerminate : Event → Bool
  | .glfwTerminate => true
  | _ => false

/-- A call of `glfwSetWindowShouldClose`. -/
def Event.isCloseRequest : Event → Bool
  | .glfwSetWindowShouldClose _ _ => true
  | _ => false

/-- A write of a non-empty message to `std::cerr`. -/
def Event.isMessage : Event → Bool
  | .cerr message => message ≠ ""
  | _ => false

/-- A call into GLFW, GLEW or OpenGL: every event but a write to `std::cerr`. -/
def Event.isDriverCall : Event → Bool
  | .cerr _ => false
  | _ => true

/-- The number of draw calls in a trace. -/
def draws (tr : List Event) : Nat := tr.countP Event.isDraw

/-- The number of calls of `glfwTerminate` in a trace. -/
def teardowns (tr : List Event) : Nat := tr.countP Event.isTerminate

/-- The number of non-empty messages on `std::cerr` in a trace. -/
def messages (tr : List Event) : Nat := tr.countP Event.isMessage

/-! ## The faces of the mesh -/

/-- The vertex with index `i`: the coordinates `3 * i`, `3 * i + 1`, `3 * i + 2` of
`boardVertices`, as the attribute layout of `glVertexAttribPointer` reads them. -/
def vertexAt (i : Nat) : FloatLit × FloatLit × FloatLit :=
  (boardVertices.getD (3 * i) 0, boardVertices.getD (3 * i + 1) 0,
    boardVertices.getD (3 * i + 2) 0)

/-- The six faces, in the order of the rows of `indeces`. -/
inductive Face where
  | front
  | back
  | top
  | bottom
  | left
  | right
deriving DecidableEq, Repr

/-- The row of `indeces` that carries the label of the face. -/
def Face.row : Face → Nat
  | .front => 0
  | .back => 1
  | .top => 2
  | .bottom => 3
  | .left => 4
  | .right => 5

/-- The first triangle listed for a face. -/
def Face.first (f : Face) : List Nat := (indeces.drop (6 * f.row)).take 3

/-- The second triangle listed for a face. -/
def Face.second (f : Face) : List Nat := (indeces.drop (6 * f.row + 3)).take 3

/-- Whether a point lies in the plane of a face of the box: front `z = 0.0`, back
`z = 0.2`, top `y = 0.5`, bottom `y = -0.5`, left `x = -0.5`, right `x = 0.5`. -/
def Face.contains (f : Face) (v : FloatLit × FloatLit × FloatLit) : Bool :=
  match f with
  | .front => v.2.2 = 0
  | .back => v.2.2 = 2
  | .top => v.2.1 = 5
  | .bottom => v.2.1 = -5
  | .left => v.1 = -5
  | .right => v.1 = 5

/-- The number of coordinates in which two points differ: 1 along an edge of the
box, 2 across a diagonal of a face. -/
def differingCoordinates (a b : FloatLit × FloatLit × FloatLit) : Nat :=
  (if a.1 = b.1 then 0 else 1) + (if a.2.1 = b.2.1 then 0 else 1) +
    (if a.2.2 = b.2.2 then 0 else 1)

/-- The indices the two triangles of a face have in common. -/
def Face.shared (f : Face) : List Nat := f.first.filter (fun i => f.second.contains i)

/-- The two triangles of a face use only vertices of that face. -/
def Face.onFace (f : Face) : Bool :=
  (f.first ++ f.second).all (fun i => f.contains (vertexAt i))

/-- Each of the two triangles of a face has three distinct vertices. -/
def Face.nondegenerate (f : Face) : Bool :=
  decide (f.first.Nodup ∧ f.first.length = 3) && decide (f.second.Nodup ∧ f.second.length = 3)

/-- The two triangles of a face have exactly two vertices in common, and these
two are the ends of a diagonal of the face. -/
def Face.sharesDiagonal (f : Face) : Bool :=
  match f.shared with
  | [i, j] => differingCoordinates (vertexAt i) (vertexAt j) = 2
  | _ => false

/-- The two triangles of a face reach all four corners of the face between them. -/
def Face.reachesCorners (f : Face) : Bool :=
  ((List.range 8).filter (fun i => f.contains (vertexAt i))).all
    (fun i => (f.first ++ f.second).contains i)

/-- The two triangles listed for a face tile it: only vertices of the face, both
triangles proper, one diagonal shared, all four corners reached. -/
def Face.tiled (f : Face) : Bool :=
  f.onFace && f.nondegenerate && f.sharesDiagonal && f.reachesCorners

/-! ## Sample environments -/

/-- A read-write file with a minimal shader text. -/
def sampleFile : File := ⟨"void main(){}", true, true⟩

/-- The same file without write permission. -/
def readOnlyFile : File := ⟨"void main(){}", true, false⟩

/-- An environment in which everything succeeds, both shader files are present
and the escape key is down from the first frame on. -/
def sampleEnv : Env where
  SHADER_DIR := "shaders/"
  files := fun _ => some sampleFile
  glfwInit := fun _ => 1
  glfwCreateWindow := fun _ => some 7
  glewInit := fun _ => 0
  glCreateShader := fun tr => tr.length
  compileStatus := fun _ => 1
  shaderInfoLog := fun _ => ""
  glCreateProgram := fun tr => tr.length
  linkStatus := fun _ => 1
  programInfoLog := fun _ => ""
  glCreateVertexArrays := fun tr => tr.length
  glCreateBuffers := fun tr => tr.length
  glfwGetKey := fun _ => 1
  closeRequested := fun _ => false
  resizes := fun _ => []

/-- The sample environment with no file at any path. -/
def noFilesEnv : Env := { sampleEnv with files := fun _ => none }

/-- The sample environment with both shader files read-only. -/
def readOnlyEnv : Env := { sampleEnv with files := fun _ => some readOnlyFile }

/-- The sample environment in which `glfwInit` fails. -/
def noGlfwEnv : Env := { sampleEnv with glfwInit := fun _ => 0 }

/-- The sample environment in which no window can be created. -/
def noWindowEnv : Env := { sampleEnv with glfwCreateWindow := fun _ => none }

/-- The sample environment in which `glewInit` fails. -/
def noGlewEnv : Env := { sampleEnv with glewInit := fun _ => 1 }

/-- The sample environment in which the driver rejects every shader. -/
def badShaderEnv : Env :=
  { sampleEnv with compileStatus := fun _ => 0, shaderInfoLog := fun _ => "0:1: error" }

/-- The sample environment in which the driver refuses to link. -/
def badLinkEnv : Env :=
  { sampleEnv with linkStatus := fun _ => 0, programInfoLog := fun _ => "link error" }

/-! ## One iteration, call by call -/

/-- The calls every iteration makes up to and including the key query: the clear,
the bindings, the one draw call and `glfwGetKey`. -/
def frameCalls (h : Handles) : List Event :=
  [Event.glClearColor 0 0 0 0,
   Event.glClear GL_COLOR_BUFFER_BIT,
   Event.glUseProgram h.finalProgram,
   Event.glBindBuffer GL_ARRAY_BUFFER h.vertexBuffer,
   Event.glBindBuffer GL_ELEMENT_ARRAY_BUFFER h.indexBuffer,
   Event.glBindVertexArray h.vertexArray,
   Event.glDrawElements GL_TRIANGLES 36 GL_UNSIGNED_INT,
   Event.glfwGetKey h.window GLFW_KEY_ESCAPE]

/-- Whether the escape key is reported pressed in the iteration that starts in
`w`. -/
def escapePressed (env : Env) (h : Handles) (w : World) : Bool :=
  env.glfwGetKey (w.trace ++ frameCalls h) = GLFW_PRESS

/-- The closure request of the iteration that starts in `w`: one call when escape
is reported pressed, none otherwise. -/
def closeCalls (env : Env) (h : Handles) (w : World) : List Event :=
  if escapePressed env h w then [Event.glfwSetWindowShouldClose h.window true] else []

/-- The trace of the iteration that starts in `w`, up to and including its call of
`glfwPollEvents`. -/
def pollTrace (env : Env) (h : Handles) (w : World) : List Event :=
  w.trace ++ frameCalls h ++ closeCalls env h w ++
    [Event.glfwSwapBuffers h.window, Event.glfwPollEvents]

/-- The viewport calls the resize callback makes for the delivered resizes. -/
def resizeCalls (sizes : List (Int × Int)) : List Event :=
  sizes.map (fun p => Event.glViewport 0 0 p.1 p.2)

/-- The handles `board` uses in its loop, given the window and the world `init`
left: the ids `uploadMesh` and `buildProgram` obtain there. -/
def boardHandles (env : Env) (window : Nat) (w : World) (finalProgram : Nat) : Handles :=
  ⟨window, finalProgram, (uploadMesh env w).1.1, (uploadMesh env w).1.2.1,
    (uploadMesh env w).1.2.2⟩

/-- The local `vertexShader` of `board` (with the world after it), given the
world `init` left. -/
def vertexShaderOf (env : Env) (w : World) : Option Nat × World :=
  shader env (env.SHADER_DIR ++ "vertex.glsl") GL_VERTEX_SHADER (uploadMesh env w).2

/-- The local `fragmentShader` of `board` (with the world after it), given the
world `init` left. -/
def fragmentShaderOf (env : Env) (w : World) : Option Nat × World :=
  shader env (env.SHADER_DIR ++ "fragment.glsl") GL_FRAGMENT_SHADER (vertexShaderOf env w).2

/-- The local `finalProgram` of `board` (with the world after it), given the
world `init` left. -/
def finalProgramOf (env : Env) (w : World) : Option Nat × World :=
  program env (vertexShaderOf env w).1 (fragmentShaderOf env w).1 (fragmentShaderOf env w).2

/-- The world after `k` full iterations of the loop from `w`, whatever the flag. -/
def frames (env : Env) (h : Handles) : Nat → World → World
  | 0, w => w
  | k + 1, w => frames env h k (loopBody env h (loopTest h w))

/-- What a run of `board` leaves to observe: the code handed to the operating
system, whether the process ended by `exit` inside a callee, the number of
calls of `glfwTerminate`, of draw calls and of non-empty messages. -/
def Outcome.summary (r : Outcome Int) : Int × Bool × Nat × Nat × Nat :=
  (r.code, r.viaExit, teardowns r.world.trace, draws r.world.trace,
    messages r.world.trace)

/-- The call of `getFileContents` seen in a world: the function makes no library
call and writes nothing to `std::cerr`, it only answers, so the world it leaves
is the world it found. -/
def getFileContentsIn (env : Env) (path : Filepath) (w : World) : Option String × World :=
  (getFileContents env.files path, w)

/-- The trace at which `init`, started in `w`, gets the answer of `glfwInit`. -/
def glfwInitTrace (w : World) : List Event := w.trace ++ [Event.glfwInit]

/-- The trace at which `init`, started in `w`, gets the answer of
`glfwCreateWindow`: after `glfwInit` and the three window hints. -/
def createWindowTrace (w : World) : List Event :=
  w.trace ++ [Event.glfwInit, Event.glfwWindowHint GLFW_CONTEXT_VERSION_MAJOR 4,
    Event.glfwWindowHint GLFW_CONTEXT_VERSION_MINOR 0,
    Event.glfwWindowHint GLFW_OPENGL_PROFILE GLFW_OPENGL_CORE_PROFILE,
    Event.glfwCreateWindow WINDOW_WIDTH WINDOW_HEIGHT "Checkers3D"]

/-- The trace at which `init`, started in `w`, gets the answer of `glewInit` for
the window it created. -/
def glewInitTrace (w : World) (window : Nat) : List Event :=
  createWindowTrace w ++ [Event.glfwMakeContextCurrent window,
    Event.glfwSetFramebufferSizeCallback window, Event.glewInit]

/-- The trace at which `shader`, started in `w`, reads the compile status of the
source `src`. -/
def compileStatusTrace (env : Env) (shaderType : Nat) (src : String) (w : World) :
    List Event :=
  w.trace ++ [Event.glCreateShader shaderType,
    Event.glShaderSource (env.glCreateShader (w.trace ++ [Event.glCreateShader shaderType]))
      (c_str src),
    Event.glCompileShader (env.glCreateShader (w.trace ++ [Event.glCreateShader shaderType])),
    Event.glGetShaderiv (env.glCreateShader (w.trace ++ [Event.glCreateShader shaderType]))
      GL_COMPILE_STATUS]

/-- The trace at which `program`, started in `w`, reads the link status of the
shaders `vs` and `fs`. -/
def linkStatusTrace (env : Env) (vs fs : Nat) (w : World) : List Event :=
  w.trace ++ [Event.glCreateProgram,
    Event.glAttachShader (env.glCreateProgram (w.trace ++ [Event.glCreateProgram])) vs,
    Event.glAttachShader (env.glCreateProgram (w.trace ++ [Event.glCreateProgram])) fs,
    Event.glLinkProgram (env.glCreateProgram (w.trace ++ [Event.glCreateProgram])),
    Event.glGetProgramiv (env.glCreateProgram (w.trace ++ [Event.glCreateProgram]))
      GL_LINK_STATUS]

/-! ## Basic facts -/

@[simp] theorem World.emit_trace (w : World) (e : Event) :
    (w.emit e).trace = w.trace ++ [e] := rfl

@[simp] theorem World.emit_shouldClose (w : World) (e : Event) :
    (w.emit e).shouldClose = w.shouldClose := rfl

@[simp] theorem teardown_trace (w : World) :
    (teardown w).trace = w.trace ++ [Event.glfwTerminate] := rfl

@[simp] theorem teardown_shouldClose (w : World) :
    (teardown w).shouldClose = w.shouldClose := rfl

/-! ## The file loader -/

/-- A missing file gives the absent value; nothing is raised, the function is
total. -/
theorem getFileContents_missing (fs : FileSystem) (path : Filepath)
    (h : fs path = none) : getFileContents fs path = none := by
  simp [getFileContents, openFile, h]

/-- A file that may be read and written is loaded whole. -/
theorem getFileContents_readWrite (fs : FileSystem) (path : Filepath) (f : File)
    (h : fs path = some f) (hr : f.readable = true) (hw : f.writable = true) :
    getFileContents fs path = some f.contents := by
  simp [getFileContents, openFile, h, hr, hw, fstreamDefaultMode]

/-- The loader answers exactly when the file exists and may be both read and
written. -/
theorem getFileContents_eq_some_iff (fs : FileSystem) (path : Filepath) (s : String) :
    getFileContents fs path = some s ↔
      ∃ f, fs path = some f ∧ f.readable = true ∧ f.writable = true ∧ f.contents = s := by
  unfold getFileContents openFile fstreamDefaultMode
  cases hf : fs path with
  | none => simp
  | some f =>
    cases hr : f.readable <;> cases hw : f.writable <;> simp [hr, hw]

/-- Claim C4, evaluated at a file that exists and can be opened for reading but
not for writing: opening it for reading delivers its content, yet
`getFileContents`, which opens it with the default mode of `std::fstream`,
answers the absent value instead of that content. -/
theorem getFileContents_readOnly_absent :
    openFile readOnlyEnv.files "shaders/vertex.glsl" OpenMode.read = some "void main(){}" ∧
    getFileContents readOnlyEnv.files "shaders/vertex.glsl" = none := by
  constructor <;> rfl

/-! ## The program linker -/

theorem program_none_of_absent (env : Env) (vertexShader fragmentShader : Option Nat)
    (w : World) (h : vertexShader = none ∨ fragmentShader = none) :
    (program env vertexShader fragmentShader w).1 = none := by
  rcases h with h | h
  · subst h
    simp [program]
  · subst h
    cases vertexShader <;> simp [program]

/-- Claim C1: when at least one of the two shader handles is absent, `program`
returns the absent value, and all it adds to the trace is the allocation
`glCreateProgram` followed by one message on `std::cerr`; so it makes no
attach, link or link-status call, and the allocation is its only driver call. -/
theorem program_absent_input (env : Env) (vertexShader fragmentShader : Option Nat)
    (w : World) (h : vertexShader = none ∨ fragmentShader = none) :
    (program env vertexShader fragmentShader w).1 = none ∧
    (program env vertexShader fragmentShader w).2.trace =
      w.trace ++ [Event.glCreateProgram,
        Event.cerr "vertex/fragment shader doesn't exist\n"] ∧
    ((program env vertexShader fragmentShader w).2.trace.drop w.trace.length).filter
      Event.isDriverCall = [Event.glCreateProgram] := by
  rcases h with h | h
  · subst h
    simp [program, Event.isDriverCall]
  · subst h
    cases vertexShader <;> simp [program, Event.isDriverCall]

/-- Claim C1 at absent vertex and present fragment shader. -/
theorem program_absent_input_witness :
    ((none : Option Nat) = none ∨ some 3 = (none : Option Nat)) ∧
    (program sampleEnv none (some 3) World.start).1 = none ∧
    (program sampleEnv none (some 3) World.start).2.trace =
      World.start.trace ++ [Event.glCreateProgram,
        Event.cerr "vertex/fragment shader doesn't exist\n"] ∧
    ((program sampleEnv none (some 3) World.start).2.trace.drop
      World.start.trace.length).filter Event.isDriverCall = [Event.glCreateProgram] :=
  ⟨Or.inl rfl, program_absent_input sampleEnv none (some 3) World.start (Or.inl rfl)⟩

/-- The trace at which `program` reads the link status of shaders `vs` and `fs`:
the allocation, both attachments, the link and the status query. -/
theorem program_present_trace (env : Env) (vs fs : Nat) (w : World) :
    (program env (some vs) (some fs) w).2.trace.take (w.trace.length + 5) =
      w.trace ++ [Event.glCreateProgram,
        Event.glAttachShader (env.glCreateProgram (w.trace ++ [Event.glCreateProgram])) vs,
        Event.glAttachShader (env.glCreateProgram (w.trace ++ [Event.glCreateProgram])) fs,
        Event.glLinkProgram (env.glCreateProgram (w.trace ++ [Event.glCreateProgram])),
        Event.glGetProgramiv (env.glCreateProgram (w.trace ++ [Event.glCreateProgram]))
          GL_LINK_STATUS] := by
  simp only [program, World.emit_trace]
  split <;> simp [List.take_append_eq_append_take, List.take_append_of_le_length]

/-- Claim C2: `program` returns a present handle if and only if both shader
handles are present and the link status the driver reports (read after the
allocation, the two attachments and the link) is not zero; a present result is
the id the driver returned from `glCreateProgram`. -/
theorem program_present_iff (env : Env) (vertexShader fragmentShader : Option Nat)
    (w : World) :
    ((program env vertexShader fragmentShader w).1.isSome = true ↔
      ∃ vs fs, vertexShader = some vs ∧ fragmentShader = some fs ∧
        env.linkStatus (w.trace ++ [Event.glCreateProgram,
          Event.glAttachShader (env.glCreateProgram (w.trace ++ [Event.glCreateProgram])) vs,
          Event.glAttachShader (env.glCreateProgram (w.trace ++ [Event.glCreateProgram])) fs,
          Event.glLinkProgram (env.glCreateProgram (w.trace ++ [Event.glCreateProgram])),
          Event.glGetProgramiv (env.glCreateProgram (w.trace ++ [Event.glCreateProgram]))
            GL_LINK_STATUS]) ≠ 0) ∧
    ∀ p, (program env vertexShader fragmentShader w).1 = some p →
      p = env.glCreateProgram (w.trace ++ [Event.glCreateProgram]) := by
  cases vertexShader with
  | none => simp [program]
  | some vs =>
    cases fragmentShader with
    | none => simp [program]
    | some fs =>
      simp only [program, World.emit_trace, List.append_assoc, List.singleton_append]
      split
      · rename_i h
        simp only [List.cons_append, List.nil_append] at h
        simp [h]
      · rename_i h
        simp only [List.cons_append, List.nil_append] at h
        refine ⟨?_, ?_⟩
        · simp [h]
        · intro p hp
          simpa using hp.symm

/-- Claim C2 at two present shaders that link: the result is present and is the id
the driver gave for the allocation. -/
theorem program_present_iff_witness :
    (program sampleEnv (some 5) (some 6) World.start).1 = some 1 ∧
    1 = sampleEnv.glCreateProgram (World.start.trace ++ [Event.glCreateProgram]) :=
  ⟨rfl, (program_present_iff sampleEnv (some 5) (some 6) World.start).2 1 rfl⟩

/-! ## The shader compiler -/

/-- Claim C3: when the file loader yields no source for the path, `shader`
returns the absent value and all it adds to the trace is one non-empty message
on `std::cerr`; no call into the driver is made. -/
theorem shader_absent_source (env : Env) (shaderPath : Filepath) (shaderType : Nat)
    (w : World) (h : getFileContents env.files shaderPath = none) :
    (shader env shaderPath shaderType w).1 = none ∧
    (shader env shaderPath shaderType w).2.trace =
      w.trace ++ [Event.cerr "No shader source\n"] ∧
    ((shader env shaderPath shaderType w).2.trace.drop w.trace.length).filter
      Event.isDriverCall = [] ∧
    messages (shader env shaderPath shaderType w).2.trace = messages w.trace + 1 := by
  simp [shader, h, Event.isDriverCall, messages, List.countP_append, Event.isMessage]

/-- Claim C3 at a filesystem without the shader file. -/
theorem shader_absent_source_witness :
    getFileContents noFilesEnv.files "shaders/vertex.glsl" = none ∧
    (shader noFilesEnv "shaders/vertex.glsl" GL_VERTEX_SHADER World.start).1 = none ∧
    (shader noFilesEnv "shaders/vertex.glsl" GL_VERTEX_SHADER World.start).2.trace =
      World.start.trace ++ [Event.cerr "No shader source\n"] ∧
    ((shader noFilesEnv "shaders/vertex.glsl" GL_VERTEX_SHADER World.start).2.trace.drop
      World.start.trace.length).filter Event.isDriverCall = [] ∧
    messages (shader noFilesEnv "shaders/vertex.glsl" GL_VERTEX_SHADER World.start).2.trace =
      messages World.start.trace + 1 :=
  ⟨rfl, shader_absent_source noFilesEnv "shaders/vertex.glsl" GL_VERTEX_SHADER World.start rfl⟩

/-! ## The render loop -/

theorem resize_foldl (sizes : List (Int × Int)) (w : World) :
    (sizes.foldl (fun w p => framebuffer_size_callback p.1 p.2 w) w).trace =
        w.trace ++ resizeCalls sizes ∧
    (sizes.foldl (fun w p => framebuffer_size_callback p.1 p.2 w) w).shouldClose =
        w.shouldClose := by
  induction sizes generalizing w with
  | nil => simp [resizeCalls]
  | cons p rest ih =>
    have h := ih (framebuffer_size_callback p.1 p.2 w)
    simp only [List.foldl_cons]
    refine ⟨?_, ?_⟩
    · rw [h.1]
      simp [framebuffer_size_callback, resizeCalls]
    · rw [h.2]
      simp [framebuffer_size_callback]

theorem glfwPollEvents_trace (env : Env) (w : World) :
    (glfwPollEvents env w).trace = w.trace ++ [Event.glfwPollEvents] ++
      resizeCalls (env.resizes (w.trace ++ [Event.glfwPollEvents])) := by
  simp [glfwPollEvents, (resize_foldl _ _).1]

theorem glfwPollEvents_shouldClose (env : Env) (w : World) :
    (glfwPollEvents env w).shouldClose =
      (w.shouldClose || env.closeRequested (w.trace ++ [Event.glfwPollEvents])) := by
  simp [glfwPollEvents, (resize_foldl _ _).2]

theorem drawCount_eq : drawCount = 36 := by decide

theorem loopBody_trace (env : Env) (h : Handles) (w : World) :
    (loopBody env h w).trace =
      pollTrace env h w ++ resizeCalls (env.resizes (pollTrace env h w)) := by
  simp only [loopBody, glfwPollEvents_trace, World.emit_trace, drawCount_eq, RGBColor.Black]
  by_cases hk : escapePressed env h w = true
  · have hk2 := hk
    simp only [escapePressed, frameCalls, decide_eq_true_eq] at hk2
    simp [pollTrace, closeCalls, hk, frameCalls, glfwSetWindowShouldClose, hk2]
  · have hk2 := hk
    simp only [escapePressed, frameCalls, decide_eq_true_eq] at hk2
    simp [pollTrace, closeCalls, hk, frameCalls, glfwSetWindowShouldClose, hk2]

theorem loopBody_shouldClose (env : Env) (h : Handles) (w : World) :
    (loopBody env h w).shouldClose =
      (w.shouldClose || escapePressed env h w || env.closeRequested (pollTrace env h w)) := by
  simp only [loopBody, glfwPollEvents_shouldClose, World.emit_trace, World.emit_shouldClose,
    drawCount_eq, RGBColor.Black]
  by_cases hk : escapePressed env h w = true
  · have hk2 := hk
    simp only [escapePressed, frameCalls, decide_eq_true_eq] at hk2
    simp [pollTrace, closeCalls, hk, frameCalls, glfwSetWindowShouldClose, hk2]
  · have hk2 := hk
    simp only [escapePressed, frameCalls, decide_eq_true_eq] at hk2
    simp [pollTrace, closeCalls, hk, frameCalls, glfwSetWindowShouldClose, hk2]

theorem renderLoop_closed (env : Env) (h : Handles) (fuel : Nat) (w : World)
    (hc : w.shouldClose = true) : renderLoop env h fuel w = some (loopTest h w) := by
  cases fuel <;> simp [renderLoop, loopTest, hc]

theorem renderLoop_open (env : Env) (h : Handles) (fuel : Nat) (w : World)
    (hc : w.shouldClose = false) :
    renderLoop env h (fuel + 1) w = renderLoop env h fuel (loopBody env h (loopTest h w)) := by
  simp [renderLoop, loopTest, hc]

/-- Claim C10: the loop as a step over the should-close flag.  With the flag up
at the top the loop ends for every fuel and adds only the test, the body does
not run.  With the flag down one more iteration runs.  An iteration adds, in
this order, the frame calls (one clear, one draw, the key query), the closure
request exactly when escape is reported pressed, the buffer swap, the event
poll and the viewport calls of delivered resizes.  When escape is reported
pressed the iteration still swaps buffers after its draw call, leaves the flag
up, and the loop then ends without a further iteration, so without a further
draw call.  No iteration lowers the flag. -/
theorem renderLoop_step (env : Env) (h : Handles) (w : World) :
    (w.shouldClose = true → ∀ fuel, renderLoop env h fuel w = some (loopTest h w)) ∧
    (w.shouldClose = false → ∀ fuel,
      renderLoop env h (fuel + 1) w = renderLoop env h fuel (loopBody env h (loopTest h w))) ∧
    (loopBody env h w).trace =
      w.trace ++ frameCalls h ++ closeCalls env h w ++
        [Event.glfwSwapBuffers h.window, Event.glfwPollEvents] ++
        resizeCalls (env.resizes (pollTrace env h w)) ∧
    ((loopBody env h w).trace.drop w.trace.length).countP Event.isClear = 1 ∧
    ((loopBody env h w).trace.drop w.trace.length).countP Event.isDraw = 1 ∧
    ((loopBody env h w).trace.drop w.trace.length).countP Event.isCloseRequest =
      (if escapePressed env h w = true then 1 else 0) ∧
    (escapePressed env h w = true →
      (loopBody env h w).shouldClose = true ∧
      ∀ fuel, renderLoop env h fuel (loopBody env h w) =
        some (loopTest h (loopBody env h w)) ∧
        draws (loopTest h (loopBody env h w)).trace = draws (loopBody env h w).trace) ∧
    (w.shouldClose = true → (loopBody env h w).shouldClose = true) := by
  have hcount : ∀ sizes : List (Int × Int),
      (resizeCalls sizes).countP Event.isClear = 0 ∧
      (resizeCalls sizes).countP Event.isDraw = 0 ∧
      (resizeCalls sizes).countP Event.isCloseRequest = 0 := by
    intro sizes
    simp [resizeCalls, List.countP_eq_zero, Event.isClear, Event.isDraw,
      Event.isCloseRequest]
  refine ⟨fun hc fuel => renderLoop_closed env h fuel w hc,
    fun hc fuel => renderLoop_open env h fuel w hc, ?_, ?_, ?_, ?_, ?_, ?_⟩
  · rw [loopBody_trace]; rfl
  · rw [loopBody_trace]
    simp only [pollTrace, List.append_assoc, List.drop_left, List.countP_append,
      (hcount _).1]
    unfold closeCalls
    split <;> simp [frameCalls, Event.isClear]
  · rw [loopBody_trace]
    simp only [pollTrace, List.append_assoc, List.drop_left, List.countP_append,
      (hcount _).2.1]
    unfold closeCalls
    split <;> simp [frameCalls, Event.isDraw]
  · rw [loopBody_trace]
    simp only [pollTrace, List.append_assoc, List.drop_left, List.countP_append,
      (hcount _).2.2]
    unfold closeCalls
    split <;> simp [frameCalls, Event.isCloseRequest]
  · intro hk
    have hc : (loopBody env h w).shouldClose = true := by
      rw [loopBody_shouldClose]; simp [hk]
    refine ⟨hc, fun fuel => ⟨renderLoop_closed env h fuel _ hc, ?_⟩⟩
    simp [loopTest, draws, List.countP_append, Event.isDraw]
  · intro hc
    rw [loopBody_shouldClose]; simp [hc]

/-- Claim C10 at an iteration in which escape is reported pressed: the flag is
up after it and the loop ends without a further iteration or draw call. -/
theorem renderLoop_step_witness :
    escapePressed sampleEnv ⟨7, 1, 2, 3, 4⟩ World.start = true ∧
    (loopBody sampleEnv ⟨7, 1, 2, 3, 4⟩ World.start).shouldClose = true ∧
    ∀ fuel, renderLoop sampleEnv ⟨7, 1, 2, 3, 4⟩ fuel
        (loopBody sampleEnv ⟨7, 1, 2, 3, 4⟩ World.start) =
        some (loopTest ⟨7, 1, 2, 3, 4⟩ (loopBody sampleEnv ⟨7, 1, 2, 3, 4⟩ World.start)) ∧
      draws (loopTest ⟨7, 1, 2, 3, 4⟩
        (loopBody sampleEnv ⟨7, 1, 2, 3, 4⟩ World.start)).trace =
        draws (loopBody sampleEnv ⟨7, 1, 2, 3, 4⟩ World.start).trace :=
  ⟨by decide,
    (renderLoop_step sampleEnv ⟨7, 1, 2, 3, 4⟩ World.start).2.2.2.2.2.2.1 (by decide)⟩

/-! ## The mesh -/

/-- Claim C8: the mesh is a well-formed indexed triangle list: 8 vertices of 3
coordinates, 36 indices making 12 triangles, every index below 8, and the count
`sizeof(indeces) / sizeof(indeces[0])` that every iteration of the loop passes to
`glDrawElements` is 36. -/
theorem mesh_well_formed :
    boardVertices.length = 8 * 3 ∧
    indeces.length = 36 ∧
    indeces.length = 12 * 3 ∧
    (∀ i ∈ indeces, i < 8) ∧
    drawCount = 36 ∧
    ∀ (env : Env) (h : Handles) (w : World),
      Event.glDrawElements GL_TRIANGLES 36 GL_UNSIGNED_INT ∈ (loopBody env h w).trace ∧
      ∀ e ∈ (loopBody env h w).trace.drop w.trace.length,
        e.isDraw = true → e = Event.glDrawElements GL_TRIANGLES 36 GL_UNSIGNED_INT := by
  refine ⟨by decide, by decide, by decide, by decide, by decide, ?_⟩
  intro env h w
  rw [loopBody_trace]
  refine ⟨?_, ?_⟩
  · simp [pollTrace, frameCalls]
  · intro e he hd
    simp only [pollTrace, List.append_assoc, List.drop_left] at he
    simp only [List.mem_append, frameCalls, closeCalls, resizeCalls, List.mem_cons,
      List.mem_map, List.mem_singleton] at he
    rcases he with he | he | he | he
    · rcases he with he | he | he | he | he | he | he | he | he <;>
        first
          | exact he
          | (subst he; simp [Event.isDraw] at hd)
          | simp at he
    · split at he
      · simp only [List.mem_singleton] at he
        subst he
        simp [Event.isDraw] at hd
      · simp at he
    · rcases he with he | he | he
      · subst he; simp [Event.isDraw] at hd
      · subst he; simp [Event.isDraw] at hd
      · simp at he
    · obtain ⟨p, _, hp⟩ := he
      subst hp
      simp [Event.isDraw] at hd

/-- Claim C9, evaluated on the table: the rows labelled front, bottom, left and
right tile their faces, the rows labelled back and top do not.  The two
triangles of the back row, `4 5 6` and `4 5 7`, share the side `4 5` of the face
(its ends differ in one coordinate), not a diagonal; the second triangle of the
top row, `1 6 7`, uses vertex 7, which is not on the top face, and its three
vertices lie in no common face plane of the box. -/
theorem faces_tiled :
    Face.front.tiled = true ∧ Face.bottom.tiled = true ∧
    Face.left.tiled = true ∧ Face.right.tiled = true ∧
    Face.back.tiled = false ∧ Face.top.tiled = false ∧
    Face.back.first = [4, 5, 6] ∧ Face.back.second = [4, 5, 7] ∧
    Face.back.shared = [4, 5] ∧ differingCoordinates (vertexAt 4) (vertexAt 5) = 1 ∧
    Face.top.second = [1, 6, 7] ∧ Face.top.contains (vertexAt 7) = false ∧
    (∀ f : Face, (Face.top.second.all (fun i => f.contains (vertexAt i))) = false) := by
  refine ⟨by decide, by decide, by decide, by decide, by decide, by decide, by decide,
    by decide, by decide, by decide, by decide, by decide, ?_⟩
  intro f
  cases f <;> decide


/-! ## Bootstrap -/

theorem initGLFW_exited (env : Env) (w w' : World) (code : Int)
    (h : initGLFW env w = Outcome.exited code w') :
    code = EXIT_FAILURE ∧
    w'.trace = w.trace ++
      [Event.glfwInit, Event.cerr "Failed to initialize GLFW\n", Event.glfwTerminate] := by
  unfold initGLFW at h
  simp only [World.emit_trace] at h
  split at h
  · injection h with h1 h2
    subst h1 h2
    simp
  · exact Outcome.noConfusion h

theorem initGLFW_returned (env : Env) (w w' : World) (u : Unit)
    (h : initGLFW env w = Outcome.returned u w') :
    w'.trace = w.trace ++
      [Event.glfwInit, Event.glfwWindowHint GLFW_CONTEXT_VERSION_MAJOR 4,
        Event.glfwWindowHint GLFW_CONTEXT_VERSION_MINOR 0,
        Event.glfwWindowHint GLFW_OPENGL_PROFILE GLFW_OPENGL_CORE_PROFILE] := by
  unfold initGLFW at h
  simp only [World.emit_trace] at h
  split at h
  · exact Outcome.noConfusion h
  · injection h with h1 h2
    subst h2
    simp

theorem create_window_exited (env : Env) (w w' : World) (code : Int)
    (h : create_window env w = Outcome.exited code w') :
    code = EXIT_FAILURE ∧
    w'.trace = w.trace ++
      [Event.glfwCreateWindow WINDOW_WIDTH WINDOW_HEIGHT "Checkers3D",
        Event.cerr "Failed to create GLFWwindow\n", Event.glfwTerminate] := by
  unfold create_window at h
  simp only [World.emit_trace] at h
  split at h
  · injection h with h1 h2
    subst h1 h2
    simp
  · exact Outcome.noConfusion h

theorem create_window_returned (env : Env) (w w' : World) (window : Nat)
    (h : create_window env w = Outcome.returned window w') :
    w'.trace = w.trace ++
      [Event.glfwCreateWindow WINDOW_WIDTH WINDOW_HEIGHT "Checkers3D"] := by
  unfold create_window at h
  simp only [World.emit_trace] at h
  split at h
  · exact Outcome.noConfusion h
  · injection h with h1 h2
    subst h2
    simp

theorem initGLEW_exited (env : Env) (w w' : World) (code : Int)
    (h : initGLEW env w = Outcome.exited code w') :
    code = EXIT_FAILURE ∧
    w'.trace = w.trace ++
      [Event.glewInit, Event.cerr "Failed to initialize GLEW\n", Event.glfwTerminate] := by
  unfold initGLEW at h
  simp only [World.emit_trace] at h
  split at h
  · injection h with h1 h2
    subst h1 h2
    simp
  · exact Outcome.noConfusion h

theorem initGLEW_returned (env : Env) (w w' : World) (u : Unit)
    (h : initGLEW env w = Outcome.returned u w') :
    w'.trace = w.trace ++ [Event.glewInit] := by
  unfold initGLEW at h
  simp only [World.emit_trace] at h
  split at h
  · exact Outcome.noConfusion h
  · injection h with h1 h2
    subst h2
    simp

/-- An exit inside `init`: the exit code is the failure code, and `init` has added
one non-empty message, then one `glfwTerminate` as the last call, and nothing
else that is a message, a teardown or a draw call. -/
theorem init_exited (env : Env) (wireframe_mode : Bool) (w w' : World) (code : Int)
    (h : init env wireframe_mode w = Outcome.exited code w') :
    code = EXIT_FAILURE ∧ teardowns w'.trace = teardowns w.trace + 1 ∧
    messages w'.trace = messages w.trace + 1 ∧ draws w'.trace = draws w.trace ∧
    w'.trace.getLast? = some Event.glfwTerminate := by
  unfold init at h
  split at h
  · rename_i c1 w1 h1
    injection h with hc hw
    subst hc hw
    obtain ⟨hc, ht⟩ := initGLFW_exited env w _ _ h1
    simp [hc, ht, teardowns, messages, draws, List.countP_append, Event.isTerminate,
      Event.isMessage, Event.isDraw]
  · rename_i w1 h1
    have t1 := initGLFW_returned env w _ _ h1
    split at h
    · rename_i c2 w2 h2
      injection h with hc hw
      subst hc hw
      obtain ⟨hc, ht⟩ := create_window_exited env _ _ _ h2
      simp [hc, ht, t1, teardowns, messages, draws, List.countP_append, Event.isTerminate,
        Event.isMessage, Event.isDraw]
    · rename_i window w2 h2
      have t2 := create_window_returned env _ _ _ h2
      dsimp only at h
      cases h3 : initGLEW env ((w2.emit (Event.glfwMakeContextCurrent window)).emit
          (Event.glfwSetFramebufferSizeCallback window)) with
      | exited c3 w3 =>
        rw [h3] at h
        injection h with hc hw
        subst hc hw
        obtain ⟨hc, ht⟩ := initGLEW_exited env _ _ _ h3
        simp [hc, ht, t1, t2, teardowns, messages, draws, List.countP_append,
          Event.isTerminate, Event.isMessage, Event.isDraw]
      | returned u w3 =>
        rw [h3] at h
        exact Outcome.noConfusion h

/-- A return of `init`: it has added no message, no teardown and no draw call. -/
theorem init_returned (env : Env) (wireframe_mode : Bool) (w w' : World) (window : Nat)
    (h : init env wireframe_mode w = Outcome.returned window w') :
    teardowns w'.trace = teardowns w.trace ∧ messages w'.trace = messages w.trace ∧
    draws w'.trace = draws w.trace := by
  unfold init at h
  split at h
  · exact Outcome.noConfusion h
  · rename_i w1 h1
    have t1 := initGLFW_returned env w _ _ h1
    split at h
    · exact Outcome.noConfusion h
    · rename_i window w2 h2
      have t2 := create_window_returned env _ _ _ h2
      dsimp only at h
      cases h3 : initGLEW env ((w2.emit (Event.glfwMakeContextCurrent window)).emit
          (Event.glfwSetFramebufferSizeCallback window)) with
      | exited c3 w3 =>
        rw [h3] at h
        exact Outcome.noConfusion h
      | returned u w3 =>
        rw [h3] at h
        have t3 := initGLEW_returned env _ _ _ h3
        injection h with hc hw
        subst hw
        cases wireframe_mode <;>
          simp [t1, t2, t3, teardowns, messages, draws, List.countP_append,
            Event.isTerminate, Event.isMessage, Event.isDraw]

/-! ## Shaders and programs in `board` -/

theorem uploadMesh_counts (env : Env) (w : World) :
    teardowns (uploadMesh env w).2.trace = teardowns w.trace ∧
    messages (uploadMesh env w).2.trace = messages w.trace ∧
    draws (uploadMesh env w).2.trace = draws w.trace := by
  simp [uploadMesh, teardowns, messages, draws, List.countP_append, Event.isTerminate,
    Event.isMessage, Event.isDraw]

theorem shader_counts (env : Env) (shaderPath : Filepath) (shaderType : Nat) (w : World) :
    teardowns (shader env shaderPath shaderType w).2.trace = teardowns w.trace ∧
    draws (shader env shaderPath shaderType w).2.trace = draws w.trace ∧
    messages w.trace ≤ messages (shader env shaderPath shaderType w).2.trace ∧
    ((shader env shaderPath shaderType w).1 = none →
      messages w.trace < messages (shader env shaderPath shaderType w).2.trace) := by
  unfold shader
  split
  · simp [teardowns, messages, draws, List.countP_append, Event.isTerminate,
      Event.isMessage, Event.isDraw]
  · simp only [World.emit_trace]
    split
    · simp [teardowns, messages, draws, List.countP_append, Event.isTerminate,
        Event.isMessage, Event.isDraw]
    · simp [teardowns, messages, draws, List.countP_append, Event.isTerminate,
        Event.isMessage, Event.isDraw]

theorem program_counts (env : Env) (vertexShader fragmentShader : Option Nat) (w : World) :
    teardowns (program env vertexShader fragmentShader w).2.trace = teardowns w.trace ∧
    draws (program env vertexShader fragmentShader w).2.trace = draws w.trace ∧
    messages w.trace ≤ messages (program env vertexShader fragmentShader w).2.trace ∧
    ((program env vertexShader fragmentShader w).1 = none →
      messages w.trace < messages (program env vertexShader fragmentShader w).2.trace) := by
  unfold program
  simp only [World.emit_trace]
  split
  · split
    · simp [teardowns, messages, draws, List.countP_append, Event.isTerminate,
        Event.isMessage, Event.isDraw]
    · simp [teardowns, messages, draws, List.countP_append, Event.isTerminate,
        Event.isMessage, Event.isDraw]
  · simp [teardowns, messages, draws, List.countP_append, Event.isTerminate,
      Event.isMessage, Event.isDraw]

theorem buildProgram_counts (env : Env) (w : World) :
    teardowns (buildProgram env w).2.trace = teardowns w.trace ∧
    draws (buildProgram env w).2.trace = draws w.trace ∧
    messages w.trace ≤ messages (buildProgram env w).2.trace ∧
    ((buildProgram env w).1 = none →
      messages w.trace < messages (buildProgram env w).2.trace) := by
  unfold buildProgram
  have h1 := shader_counts env (env.SHADER_DIR ++ "vertex.glsl") GL_VERTEX_SHADER w
  have h2 := shader_counts env (env.SHADER_DIR ++ "fragment.glsl") GL_FRAGMENT_SHADER
    (shader env (env.SHADER_DIR ++ "vertex.glsl") GL_VERTEX_SHADER w).2
  have h3 := program_counts env
    (shader env (env.SHADER_DIR ++ "vertex.glsl") GL_VERTEX_SHADER w).1
    (shader env (env.SHADER_DIR ++ "fragment.glsl") GL_FRAGMENT_SHADER
      (shader env (env.SHADER_DIR ++ "vertex.glsl") GL_VERTEX_SHADER w).2).1
    (shader env (env.SHADER_DIR ++ "fragment.glsl") GL_FRAGMENT_SHADER
      (shader env (env.SHADER_DIR ++ "vertex.glsl") GL_VERTEX_SHADER w).2).2
  refine ⟨?_, ?_, ?_, ?_⟩
  · simp only [h3.1, h2.1, h1.1]
  · simp only [h3.2.1, h2.2.1, h1.2.1]
  · exact le_trans h1.2.2.1 (le_trans h2.2.2.1 h3.2.2.1)
  · intro hn
    exact lt_of_le_of_lt (le_trans h1.2.2.1 h2.2.2.1) (h3.2.2.2 hn)

theorem finalProgramOf_eq (env : Env) (w : World) :
    buildProgram env (uploadMesh env w).2 = finalProgramOf env w := rfl

/-- The shader compiler answers the absent value exactly when the loader has no
source or the driver reports compile status zero. -/
theorem shader_eq_none_iff (env : Env) (shaderPath : Filepath) (shaderType : Nat)
    (w : World) :
    (shader env shaderPath shaderType w).1 = none ↔
      getFileContents env.files shaderPath = none ∨
      ∃ src, getFileContents env.files shaderPath = some src ∧
        env.compileStatus (w.trace ++ [Event.glCreateShader shaderType,
          Event.glShaderSource (env.glCreateShader (w.trace ++ [Event.glCreateShader shaderType]))
            (c_str src),
          Event.glCompileShader (env.glCreateShader (w.trace ++ [Event.glCreateShader shaderType])),
          Event.glGetShaderiv (env.glCreateShader (w.trace ++ [Event.glCreateShader shaderType]))
            GL_COMPILE_STATUS]) = 0 := by
  unfold shader
  cases hsrc : getFileContents env.files shaderPath with
  | none => simp
  | some src =>
    simp only [World.emit_trace, List.append_assoc, List.cons_append, List.nil_append]
    split
    · rename_i hs
      simp [hs]
    · rename_i hs
      simp [hs]

theorem loopBody_counts (env : Env) (h : Handles) (w : World) :
    teardowns (loopBody env h w).trace = teardowns w.trace ∧
    messages (loopBody env h w).trace = messages w.trace := by
  have hz : ∀ sizes : List (Int × Int),
      (resizeCalls sizes).countP Event.isTerminate = 0 ∧
      (resizeCalls sizes).countP Event.isMessage = 0 := by
    intro sizes
    simp [resizeCalls, List.countP_eq_zero, Event.isTerminate, Event.isMessage]
  rw [loopBody_trace]
  simp only [teardowns, messages, pollTrace, List.countP_append, (hz _).1, (hz _).2]
  unfold closeCalls
  split <;> simp [frameCalls, Event.isTerminate, Event.isMessage]

/-- When the loop returns, the flag is up, and the loop has added neither a
teardown nor a message. -/
theorem renderLoop_some (env : Env) (h : Handles) (fuel : Nat) (w w' : World)
    (hr : renderLoop env h fuel w = some w') :
    w'.shouldClose = true ∧ teardowns w'.trace = teardowns w.trace ∧
    messages w'.trace = messages w.trace := by
  induction fuel generalizing w with
  | zero =>
    simp only [renderLoop, loopTest, World.emit_shouldClose] at hr
    split at hr
    · rename_i hc
      injection hr with hr
      subst hr
      simp [hc, teardowns, messages, List.countP_append, Event.isTerminate, Event.isMessage]
    · exact Option.noConfusion hr
  | succ n ih =>
    simp only [renderLoop, loopTest, World.emit_shouldClose] at hr
    split at hr
    · rename_i hc
      injection hr with hr
      subst hr
      simp [hc, teardowns, messages, List.countP_append, Event.isTerminate, Event.isMessage]
    · obtain ⟨h1, h2, h3⟩ := ih _ hr
      have hb := loopBody_counts env h (w.emit (Event.glfwWindowShouldClose h.window))
      refine ⟨h1, ?_, ?_⟩
      · rw [h2, hb.1]
        simp [teardowns, List.countP_append, Event.isTerminate]
      · rw [h3, hb.2]
        simp [messages, List.countP_append, Event.isMessage]

theorem frames_shouldClose_mono (env : Env) (h : Handles) (k : Nat) (w : World)
    (hc : w.shouldClose = true) : (frames env h k w).shouldClose = true := by
  induction k generalizing w with
  | zero => simpa [frames] using hc
  | succ n ih =>
    simp only [frames]
    apply ih
    rw [loopBody_shouldClose]
    simp [loopTest, hc]

/-- The loop returns as soon as the fuel covers the iterations after which the
flag is up. -/
theorem renderLoop_terminates (env : Env) (h : Handles) (k fuel : Nat) (w : World)
    (hk : (frames env h k w).shouldClose = true) (hf : k ≤ fuel) :
    ∃ w', renderLoop env h fuel w = some w' := by
  induction k generalizing w fuel with
  | zero =>
    simp only [frames] at hk
    exact ⟨_, renderLoop_closed env h fuel w hk⟩
  | succ n ih =>
    cases hc : w.shouldClose with
    | true => exact ⟨_, renderLoop_closed env h fuel w hc⟩
    | false =>
      obtain ⟨m, rfl⟩ : ∃ m, fuel = m + 1 := ⟨fuel - 1, by omega⟩
      rw [renderLoop_open env h m w hc]
      exact ih m _ hk (by omega)

/-- A run in which escape is down in the first frame ends within one iteration. -/
theorem renderLoop_terminates_witness :
    (frames sampleEnv ⟨7, 1, 2, 3, 4⟩ 1 World.start).shouldClose = true ∧ 1 ≤ 1 ∧
    ∃ w', renderLoop sampleEnv ⟨7, 1, 2, 3, 4⟩ 1 World.start = some w' :=
  ⟨by decide, by decide,
    renderLoop_terminates sampleEnv ⟨7, 1, 2, 3, 4⟩ 1 1 World.start (by decide) (by decide)⟩

/-! ## `board` -/

theorem board_init_exited (env : Env) (fuel : Nat) (w w' : World) (code : Int)
    (hinit : init env false w = Outcome.exited code w') :
    board env fuel w = some (Outcome.exited code w') := by
  unfold board
  rw [hinit]

theorem board_init_returned (env : Env) (fuel : Nat) (w w1 : World) (window : Nat)
    (hinit : init env false w = Outcome.returned window w1) :
    board env fuel w =
      match (finalProgramOf env w1).1 with
      | none =>
        some (Outcome.returned EXIT_FAILURE
          ((finalProgramOf env w1).2.emit (Event.cerr "no program\n")))
      | some p =>
        match renderLoop env (boardHandles env window w1 p) fuel (finalProgramOf env w1).2 with
        | none => none
        | some wl => some (Outcome.returned EXIT_SUCCESS (teardown wl)) := by
  unfold board
  rw [hinit]
  rfl

theorem board_no_program (env : Env) (fuel : Nat) (w w1 : World) (window : Nat)
    (hinit : init env false w = Outcome.returned window w1)
    (hp : (finalProgramOf env w1).1 = none) :
    board env fuel w = some (Outcome.returned EXIT_FAILURE
      ((finalProgramOf env w1).2.emit (Event.cerr "no program\n"))) := by
  rw [board_init_returned env fuel w w1 window hinit, hp]

theorem board_program (env : Env) (fuel : Nat) (w w1 : World) (window p : Nat)
    (hinit : init env false w = Outcome.returned window w1)
    (hp : (finalProgramOf env w1).1 = some p) :
    board env fuel w =
      match renderLoop env (boardHandles env window w1 p) fuel (finalProgramOf env w1).2 with
      | none => none
      | some wl => some (Outcome.returned EXIT_SUCCESS (teardown wl)) := by
  rw [board_init_returned env fuel w w1 window hinit, hp]

theorem finalProgramOf_counts (env : Env) (w : World) :
    teardowns (finalProgramOf env w).2.trace = teardowns w.trace ∧
    draws (finalProgramOf env w).2.trace = draws w.trace ∧
    messages w.trace ≤ messages (finalProgramOf env w).2.trace ∧
    ((finalProgramOf env w).1 = none →
      messages w.trace < messages (finalProgramOf env w).2.trace) := by
  have hu := uploadMesh_counts env w
  have hb := buildProgram_counts env (uploadMesh env w).2
  rw [finalProgramOf_eq] at hb
  refine ⟨by rw [hb.1, hu.1], by rw [hb.2.1, hu.2.2], ?_, ?_⟩
  · rw [← hu.2.1]; exact hb.2.2.1
  · rw [← hu.2.1]; exact hb.2.2.2

/-- Every cause of failure leaves `finalProgram` absent: a shader file that is
missing, a shader that is absent (no source, or compile status zero), a link
that fails. -/
theorem finalProgramOf_none (env : Env) (w : World)
    (h : env.files (env.SHADER_DIR ++ "vertex.glsl") = none ∨
      env.files (env.SHADER_DIR ++ "fragment.glsl") = none ∨
      (vertexShaderOf env w).1 = none ∨ (fragmentShaderOf env w).1 = none ∨
      (finalProgramOf env w).1 = none) :
    (finalProgramOf env w).1 = none := by
  have hv : (vertexShaderOf env w).1 = none → (finalProgramOf env w).1 = none := by
    intro hv
    exact (program_none_of_absent env _ _ _ (Or.inl hv))
  have hf : (fragmentShaderOf env w).1 = none → (finalProgramOf env w).1 = none := by
    intro hf
    exact (program_none_of_absent env _ _ _ (Or.inr hf))
  rcases h with h | h | h | h | h
  · apply hv
    unfold vertexShaderOf
    rw [shader_eq_none_iff]
    exact Or.inl (getFileContents_missing _ _ h)
  · apply hf
    unfold fragmentShaderOf
    rw [shader_eq_none_iff]
    exact Or.inl (getFileContents_missing _ _ h)
  · exact hv h
  · exact hf h
  · exact h

/-- Claim C5: in a run of `board` whose initialization succeeds, every cause of
failure (a shader file missing, a shader absent because it has no source or did
not compile, a failed link) makes `board` return the failure code, which is not
zero, for every fuel, in the world the program build left plus the message
"no program": the loop is not entered and no draw call is made; the code of a run that ends is
0 exactly when a program was linked and the loop returned with the should-close
flag up, and whenever that is so `board` does return 0. -/
theorem board_result (env : Env) (fuel : Nat) (w w1 : World) (window : Nat)
    (hinit : init env false w = Outcome.returned window w1) :
    ((env.files (env.SHADER_DIR ++ "vertex.glsl") = none ∨
        env.files (env.SHADER_DIR ++ "fragment.glsl") = none ∨
        (vertexShaderOf env w1).1 = none ∨ (fragmentShaderOf env w1).1 = none ∨
        (finalProgramOf env w1).1 = none) →
      board env fuel w = some (Outcome.returned EXIT_FAILURE
          ((finalProgramOf env w1).2.emit (Event.cerr "no program\n"))) ∧
        EXIT_FAILURE ≠ 0 ∧
        draws ((finalProgramOf env w1).2.emit (Event.cerr "no program\n")).trace =
          draws w.trace) ∧
    (∀ r, board env fuel w = some r →
      (r.code = 0 ↔ ∃ p wl, (finalProgramOf env w1).1 = some p ∧
        renderLoop env (boardHandles env window w1 p) fuel (finalProgramOf env w1).2 =
          some wl ∧ wl.shouldClose = true)) ∧
    (∀ p wl, (finalProgramOf env w1).1 = some p →
      renderLoop env (boardHandles env window w1 p) fuel (finalProgramOf env w1).2 = some wl →
      board env fuel w = some (Outcome.returned EXIT_SUCCESS (teardown wl)) ∧
        EXIT_SUCCESS = 0) := by
  refine ⟨?_, ?_, ?_⟩
  · intro hfail
    have hp := finalProgramOf_none env w1 hfail
    refine ⟨board_no_program env fuel w w1 window hinit hp, by decide, ?_⟩
    have h1 := (init_returned env false w w1 window hinit).2.2
    have h2 := (finalProgramOf_counts env w1).2.1
    simp only [World.emit_trace, draws, List.countP_append] at h1 h2 ⊢
    rw [h2, h1]
    simp [Event.isDraw]
  · intro r hr
    cases hp : (finalProgramOf env w1).1 with
    | none =>
      rw [board_no_program env fuel w w1 window hinit hp] at hr
      injection hr with hr
      subst hr
      simp [Outcome.code, EXIT_FAILURE]
    | some p =>
      rw [board_program env fuel w w1 window p hinit hp] at hr
      cases hl : renderLoop env (boardHandles env window w1 p) fuel (finalProgramOf env w1).2 with
      | none =>
        rw [hl] at hr
        exact Option.noConfusion hr
      | some wl =>
        rw [hl] at hr
        injection hr with hr
        subst hr
        have hc := (renderLoop_some env _ fuel _ wl hl).1
        simp [Outcome.code, EXIT_SUCCESS, hl, hc]
  · intro p wl hp hl
    rw [board_program env fuel w w1 window p hinit hp, hl]
    exact ⟨rfl, rfl⟩

/-- Claim C5 at a run without shader files: initialization succeeds, the vertex
shader file is missing, `board` returns the failure code without a draw call. -/
theorem board_result_witness :
    init noFilesEnv false World.start =
      Outcome.returned 7 (init noFilesEnv false World.start).world ∧
    noFilesEnv.files (noFilesEnv.SHADER_DIR ++ "vertex.glsl") = none ∧
    board noFilesEnv 0 World.start = some (Outcome.returned EXIT_FAILURE
        ((finalProgramOf noFilesEnv (init noFilesEnv false World.start).world).2.emit
          (Event.cerr "no program\n"))) ∧
      EXIT_FAILURE ≠ 0 ∧
      draws ((finalProgramOf noFilesEnv (init noFilesEnv false World.start).world).2.emit
        (Event.cerr "no program\n")).trace = draws World.start.trace :=
  ⟨rfl, rfl,
    (board_result noFilesEnv 0 World.start (init noFilesEnv false World.start).world 7 rfl).1
      (Or.inl rfl)⟩

/-- Claim C6 as stated fails in two ways.  With both shader files missing the
run ends with the failure code by a return from `board` and `glfwTerminate` has
not been called at all.  And the runs that do tear down end at different
points: when `glfwInit` fails the process ends by `exit` inside `initGLFW`, after
one teardown there, while a run closed with escape ends by the last return of
`board`, after one teardown there.  Each entry is
`(code, ended by exit, teardowns, draw calls, messages)`. -/
theorem teardown_not_on_every_path :
    (board noFilesEnv 0 World.start).map Outcome.summary = some (1, false, 0, 0, 4) ∧
    (board noGlfwEnv 0 World.start).map Outcome.summary = some (1, true, 1, 0, 1) ∧
    (board sampleEnv 1 World.start).map Outcome.summary = some (0, false, 1, 1, 0) := by
  refine ⟨by decide, by decide, by decide⟩

/-- Claim C6, amended: when initialization fails (`glfwInit`, window creation or
`glewInit`) the process ends, for every fuel, by `exit(EXIT_FAILURE)` inside the
init function that failed; a run ends by `exit` only in that case; and in every
run that ends by such an exit or by returning the success code after the loop,
`glfwTerminate` has been called exactly once by that run, as the last call
before the process ends.  The return with the failure code for an absent
program is not covered. -/
theorem board_teardown (env : Env) (fuel : Nat) (w : World) :
    (∀ code w', init env false w = Outcome.exited code w' →
      board env fuel w = some (Outcome.exited code w') ∧ code = EXIT_FAILURE) ∧
    (∀ r, board env fuel w = some r →
      (r.viaExit = true ↔ (init env false w).viaExit = true) ∧
      (r.viaExit = true ∨ r.code = EXIT_SUCCESS →
        teardowns r.world.trace = teardowns w.trace + 1 ∧
        r.world.trace.getLast? = some Event.glfwTerminate)) := by
  refine ⟨?_, ?_⟩
  · intro code w' hinit
    exact ⟨board_init_exited env fuel w w' code hinit,
      (init_exited env false w w' code hinit).1⟩
  · intro r hr
    cases hinit : init env false w with
    | exited code w' =>
      rw [board_init_exited env fuel w w' code hinit] at hr
      injection hr with hr
      subst hr
      have hx := init_exited env false w w' code hinit
      simp [Outcome.viaExit, Outcome.world, hx.2.1, hx.2.2.2.2]
    | returned window w1 =>
      have hi := init_returned env false w w1 window hinit
      cases hp : (finalProgramOf env w1).1 with
      | none =>
        rw [board_no_program env fuel w w1 window hinit hp] at hr
        injection hr with hr
        subst hr
        simp [Outcome.viaExit, Outcome.code, EXIT_FAILURE, EXIT_SUCCESS]
      | some p =>
        rw [board_program env fuel w w1 window p hinit hp] at hr
        cases hl : renderLoop env (boardHandles env window w1 p) fuel
            (finalProgramOf env w1).2 with
        | none =>
          rw [hl] at hr
          exact Option.noConfusion hr
        | some wl =>
          rw [hl] at hr
          injection hr with hr
          subst hr
          have h1 := (renderLoop_some env _ fuel _ wl hl).2.1
          have h2 := (finalProgramOf_counts env w1).1
          simp only [teardowns] at h1 h2 hi
          simp [Outcome.viaExit, Outcome.world, teardowns, List.countP_append, h1, h2, hi.1,
            Event.isTerminate]

/-- Claim C6, amended, at a run that escape closes in its first frame. -/
theorem board_teardown_witness :
    board sampleEnv 1 World.start =
      some ((board sampleEnv 1 World.start).getD (Outcome.exited 0 World.start)) ∧
    (((board sampleEnv 1 World.start).getD (Outcome.exited 0 World.start)).viaExit = true ∨
      ((board sampleEnv 1 World.start).getD (Outcome.exited 0 World.start)).code =
        EXIT_SUCCESS) ∧
    teardowns ((board sampleEnv 1 World.start).getD
      (Outcome.exited 0 World.start)).world.trace = teardowns World.start.trace + 1 ∧
    ((board sampleEnv 1 World.start).getD
      (Outcome.exited 0 World.start)).world.trace.getLast? = some Event.glfwTerminate :=
  ⟨rfl, Or.inr rfl,
    ((board_teardown sampleEnv 1 World.start).2
      ((board sampleEnv 1 World.start).getD (Outcome.exited 0 World.start)) rfl).2
      (Or.inr rfl)⟩

/-! ## Failures and messages -/

theorem initGLFW_fails (env : Env) (w : World)
    (h : env.glfwInit (glfwInitTrace w) = GLFW_FALSE) :
    initGLFW env w = Outcome.exited EXIT_FAILURE
      ⟨w.trace ++ [Event.glfwInit, Event.cerr "Failed to initialize GLFW\n",
        Event.glfwTerminate], w.shouldClose⟩ := by
  unfold glfwInitTrace at h
  simp [initGLFW, h, teardown, World.emit]

theorem initGLFW_succeeds (env : Env) (w : World)
    (h : env.glfwInit (glfwInitTrace w) ≠ GLFW_FALSE) :
    initGLFW env w = Outcome.returned ()
      ⟨w.trace ++ [Event.glfwInit, Event.glfwWindowHint GLFW_CONTEXT_VERSION_MAJOR 4,
        Event.glfwWindowHint GLFW_CONTEXT_VERSION_MINOR 0,
        Event.glfwWindowHint GLFW_OPENGL_PROFILE GLFW_OPENGL_CORE_PROFILE],
        w.shouldClose⟩ := by
  unfold glfwInitTrace at h
  simp [initGLFW, h, World.emit]

theorem create_window_fails (env : Env) (w : World)
    (h : env.glfwCreateWindow
      (w.trace ++ [Event.glfwCreateWindow WINDOW_WIDTH WINDOW_HEIGHT "Checkers3D"]) = none) :
    create_window env w = Outcome.exited EXIT_FAILURE
      ⟨w.trace ++ [Event.glfwCreateWindow WINDOW_WIDTH WINDOW_HEIGHT "Checkers3D",
        Event.cerr "Failed to create GLFWwindow\n", Event.glfwTerminate], w.shouldClose⟩ := by
  simp [create_window, h, teardown, World.emit]

theorem create_window_succeeds (env : Env) (w : World) (window : Nat)
    (h : env.glfwCreateWindow
      (w.trace ++ [Event.glfwCreateWindow WINDOW_WIDTH WINDOW_HEIGHT "Checkers3D"]) =
        some window) :
    create_window env w = Outcome.returned window
      ⟨w.trace ++ [Event.glfwCreateWindow WINDOW_WIDTH WINDOW_HEIGHT "Checkers3D"],
        w.shouldClose⟩ := by
  simp [create_window, h, World.emit]

theorem initGLEW_fails (env : Env) (w : World)
    (h : env.glewInit (w.trace ++ [Event.glewInit]) ≠ GLEW_OK) :
    initGLEW env w = Outcome.exited EXIT_FAILURE
      ⟨w.trace ++ [Event.glewInit, Event.cerr "Failed to initialize GLEW\n",
        Event.glfwTerminate], w.shouldClose⟩ := by
  simp [initGLEW, h, teardown, World.emit]

/-- The three ways `init` ends the process, read off the answers of the
libraries: `glfwInit` answers `GLFW_FALSE`; or it does not and no window is
created; or a window is created and `glewInit` does not answer `GLEW_OK`. -/
theorem init_fails (env : Env) (wireframe_mode : Bool) (w : World)
    (h : env.glfwInit (glfwInitTrace w) = GLFW_FALSE ∨
      (env.glfwInit (glfwInitTrace w) ≠ GLFW_FALSE ∧
        env.glfwCreateWindow (createWindowTrace w) = none) ∨
      (env.glfwInit (glfwInitTrace w) ≠ GLFW_FALSE ∧
        ∃ window, env.glfwCreateWindow (createWindowTrace w) = some window ∧
          env.glewInit (glewInitTrace w window) ≠ GLEW_OK)) :
    ∃ w', init env wireframe_mode w = Outcome.exited EXIT_FAILURE w' := by
  rcases h with h | ⟨h1, h2⟩ | ⟨h1, window, h2, h3⟩
  · unfold init
    rw [initGLFW_fails env w h]
    exact ⟨_, rfl⟩
  · unfold init
    rw [initGLFW_succeeds env w h1]
    dsimp only
    rw [create_window_fails env _ (by simpa [createWindowTrace] using h2)]
    exact ⟨_, rfl⟩
  · unfold init
    rw [initGLFW_succeeds env w h1]
    dsimp only
    rw [create_window_succeeds env _ window (by simpa [createWindowTrace] using h2)]
    dsimp only
    rw [initGLEW_fails env _ (by simpa [glewInitTrace, createWindowTrace] using h3)]
    exact ⟨_, rfl⟩

theorem program_none_of_link_status (env : Env) (vs fs : Nat) (w : World)
    (h : env.linkStatus (linkStatusTrace env vs fs w) = 0) :
    (program env (some vs) (some fs) w).1 = none := by
  unfold linkStatusTrace at h
  simp only [program, World.emit_trace, List.append_assoc, List.cons_append,
    List.nil_append]
  rw [if_pos h]

/-- Claim C7 as stated fails for the file loader: it is `getFileContents` that
finds the shader file cannot be opened, and it returns the absent value leaving
the world as it found it, without any message on `std::cerr`. -/
theorem loader_fails_silently :
    (getFileContentsIn noFilesEnv "shaders/vertex.glsl" World.start).1 = none ∧
    (getFileContentsIn noFilesEnv "shaders/vertex.glsl" World.start).2 = World.start ∧
    messages (getFileContentsIn noFilesEnv "shaders/vertex.glsl" World.start).2.trace = 0 := by
  refine ⟨by decide, by decide, by decide⟩

/-- Claim C7, amended: every failure is reported by the time the operation that
the loader, the driver or the library failed under returns.  When `glfwInit`
answers `GLFW_FALSE`, when no window is created, when `glewInit` does not answer
`GLEW_OK`, the init function writes its message, tears down and exits with the
failure code, and so does `board`, for every fuel.  When the shader file cannot
be opened, `getFileContents` itself writes nothing and `shader`, its caller,
writes the message before it returns the absent value.  When the compile status
is zero `shader`, and when a shader is absent or the link status is zero
`program`, writes at least one non-empty message and returns the absent value.
Every run of `board` that ends with a code other than the success code has
written at least one non-empty message. -/
theorem failures_logged (env : Env) (w : World) :
    (env.glfwInit (glfwInitTrace w) = GLFW_FALSE →
      initGLFW env w = Outcome.exited EXIT_FAILURE
        ⟨w.trace ++ [Event.glfwInit, Event.cerr "Failed to initialize GLFW\n",
          Event.glfwTerminate], w.shouldClose⟩) ∧
    (env.glfwCreateWindow
        (w.trace ++ [Event.glfwCreateWindow WINDOW_WIDTH WINDOW_HEIGHT "Checkers3D"]) = none →
      create_window env w = Outcome.exited EXIT_FAILURE
        ⟨w.trace ++ [Event.glfwCreateWindow WINDOW_WIDTH WINDOW_HEIGHT "Checkers3D",
          Event.cerr "Failed to create GLFWwindow\n", Event.glfwTerminate],
          w.shouldClose⟩) ∧
    (env.glewInit (w.trace ++ [Event.glewInit]) ≠ GLEW_OK →
      initGLEW env w = Outcome.exited EXIT_FAILURE
        ⟨w.trace ++ [Event.glewInit, Event.cerr "Failed to initialize GLEW\n",
          Event.glfwTerminate], w.shouldClose⟩) ∧
    ((env.glfwInit (glfwInitTrace w) = GLFW_FALSE ∨
        (env.glfwInit (glfwInitTrace w) ≠ GLFW_FALSE ∧
          env.glfwCreateWindow (createWindowTrace w) = none) ∨
        (env.glfwInit (glfwInitTrace w) ≠ GLFW_FALSE ∧
          ∃ window, env.glfwCreateWindow (createWindowTrace w) = some window ∧
            env.glewInit (glewInitTrace w window) ≠ GLEW_OK)) →
      ∀ fuel, ∃ w', board env fuel w = some (Outcome.exited EXIT_FAILURE w') ∧
        messages w'.trace = messages w.trace + 1 ∧
        w'.trace.getLast? = some Event.glfwTerminate) ∧
    (∀ shaderPath shaderType, (getFileContentsIn env shaderPath w).1 = none →
      (getFileContentsIn env shaderPath w).2 = w ∧
      (shader env shaderPath shaderType w).1 = none ∧
      (shader env shaderPath shaderType w).2 =
        (getFileContentsIn env shaderPath w).2.emit (Event.cerr "No shader source\n") ∧
      messages (shader env shaderPath shaderType w).2.trace = messages w.trace + 1) ∧
    (∀ shaderPath shaderType src, getFileContents env.files shaderPath = some src →
      env.compileStatus (compileStatusTrace env shaderType src w) = 0 →
      (shader env shaderPath shaderType w).1 = none ∧
      messages w.trace < messages (shader env shaderPath shaderType w).2.trace) ∧
    (∀ vertexShader fragmentShader, vertexShader = none ∨ fragmentShader = none →
      (program env vertexShader fragmentShader w).1 = none ∧
      messages w.trace < messages (program env vertexShader fragmentShader w).2.trace) ∧
    (∀ vs fs, env.linkStatus (linkStatusTrace env vs fs w) = 0 →
      (program env (some vs) (some fs) w).1 = none ∧
      messages w.trace < messages (program env (some vs) (some fs) w).2.trace) ∧
    (∀ shaderPath shaderType, (shader env shaderPath shaderType w).1 = none →
      messages w.trace < messages (shader env shaderPath shaderType w).2.trace) ∧
    (∀ vertexShader fragmentShader, (program env vertexShader fragmentShader w).1 = none →
      messages w.trace < messages (program env vertexShader fragmentShader w).2.trace) ∧
    (∀ fuel r, board env fuel w = some r → r.code ≠ EXIT_SUCCESS →
      messages w.trace < messages r.world.trace) := by
  refine ⟨initGLFW_fails env w, create_window_fails env w, initGLEW_fails env w,
    ?_, ?_, ?_, ?_, ?_, ?_, ?_, ?_⟩
  · intro h fuel
    obtain ⟨w', hw'⟩ := init_fails env false w h
    have hx := init_exited env false w w' EXIT_FAILURE hw'
    exact ⟨w', board_init_exited env fuel w w' EXIT_FAILURE hw', hx.2.2.1, hx.2.2.2.2⟩
  · intro shaderPath shaderType h
    have h' : getFileContents env.files shaderPath = none := h
    refine ⟨rfl, ?_, ?_, ?_⟩
    · simp [shader, h']
    · simp [shader, h', getFileContentsIn]
    · simp [shader, h', messages, List.countP_append, Event.isMessage]
  · intro shaderPath shaderType src hsrc hst
    have hn : (shader env shaderPath shaderType w).1 = none :=
      (shader_eq_none_iff env shaderPath shaderType w).2 (Or.inr ⟨src, hsrc, hst⟩)
    exact ⟨hn, (shader_counts env shaderPath shaderType w).2.2.2 hn⟩
  · intro vertexShader fragmentShader h
    have hn := program_none_of_absent env vertexShader fragmentShader w h
    exact ⟨hn, (program_counts env vertexShader fragmentShader w).2.2.2 hn⟩
  · intro vs fs h
    have hn := program_none_of_link_status env vs fs w h
    exact ⟨hn, (program_counts env (some vs) (some fs) w).2.2.2 hn⟩
  · intro shaderPath shaderType h
    exact (shader_counts env shaderPath shaderType w).2.2.2 h
  · intro vertexShader fragmentShader h
    exact (program_counts env vertexShader fragmentShader w).2.2.2 h
  · intro fuel r hr hcode
    cases hinit : init env false w with
    | exited code w' =>
      rw [board_init_exited env fuel w w' code hinit] at hr
      injection hr with hr
      subst hr
      have hx := init_exited env false w w' code hinit
      simp only [Outcome.world]
      omega
    | returned window w1 =>
      have hi := init_returned env false w w1 window hinit
      cases hp : (finalProgramOf env w1).1 with
      | none =>
        rw [board_no_program env fuel w w1 window hinit hp] at hr
        injection hr with hr
        subst hr
        have h2 := (finalProgramOf_counts env w1).2.2.1
        have h3 : List.countP Event.isMessage [Event.cerr "no program\n"] = 1 := by decide
        simp only [Outcome.world, World.emit_trace, messages, List.countP_append, h3] at h2 hi ⊢
        omega
      | some p =>
        rw [board_program env fuel w w1 window p hinit hp] at hr
        cases hl : renderLoop env (boardHandles env window w1 p) fuel
            (finalProgramOf env w1).2 with
        | none =>
          rw [hl] at hr
          exact Option.noConfusion hr
        | some wl =>
          rw [hl] at hr
          injection hr with hr
          subst hr
          exact absurd rfl hcode

/-- Claim C7, amended, at a run in which `glewInit` fails: `initGLEW` writes its
message, tears down and exits, and `board` exits with the failure code. -/
theorem failures_logged_witness :
    noGlewEnv.glewInit (World.start.trace ++ [Event.glewInit]) ≠ GLEW_OK ∧
    initGLEW noGlewEnv World.start = Outcome.exited EXIT_FAILURE
      ⟨World.start.trace ++ [Event.glewInit, Event.cerr "Failed to initialize GLEW\n",
        Event.glfwTerminate], World.start.shouldClose⟩ ∧
    (noGlewEnv.glfwInit (glfwInitTrace World.start) ≠ GLFW_FALSE ∧
      ∃ window, noGlewEnv.glfwCreateWindow (createWindowTrace World.start) = some window ∧
        noGlewEnv.glewInit (glewInitTrace World.start window) ≠ GLEW_OK) ∧
    ∃ w', board noGlewEnv 0 World.start = some (Outcome.exited EXIT_FAILURE w') ∧
      messages w'.trace = messages World.start.trace + 1 ∧
      w'.trace.getLast? = some Event.glfwTerminate :=
  ⟨by decide, (failures_logged noGlewEnv World.start).2.2.1 (by decide),
    ⟨by decide, 7, rfl, by decide⟩,
    (failures_logged noGlewEnv World.start).2.2.2.1
      (Or.inr (Or.inr ⟨by decide, 7, rfl, by decide⟩)) 0⟩

end Checkers3D
